import Mathlib

/-!
Channel creation client (`internal/peer/channel/create.go`)

A shallow embedding of the channel-creation client: build and sign the
configuration transaction, broadcast it, poll the delivery service for the
genesis block and persist it.

The Go code talks to collaborators that live outside the translated file
(protobuf decoders, the signer, the broadcast and delivery clients, the file
system, the deadline timer).  They are parameters of the embedding, gathered
in `Env`.  Every effectful collaborator receives the history of effects
performed so far, so its answer may depend on anything that happened before
(a delivery client that fails twice and then succeeds, a timer that fires
after a number of sleeps).  Every call of an effectful collaborator is
recorded in `State.trace`, which is how "is never invoked" and "exactly once"
are stated.  Package-level Go variables (`channelID`, `channelTxFile`,
`outputBlock`, `timeout`) are fields of `State`; collaborators do not write
them.
-/

namespace ChannelCreate

-- Equality of Go results `(value, error)` is decidable.
deriving instance DecidableEq for Except

/-- Go `[]byte`. -/
abbrev Bytes := List Nat

/-- Handle of an `identity.SignerSerializer`. -/
abbrev Signer := Nat

/-- Handle of a `common.BroadcastClient` connection. -/
abbrev BroadcastClient := Nat

/-- Handle of a delivery connection (`cf.DeliverClient`). -/
abbrev DeliverClient := Nat

/-- Go `error` values that the translated code builds or forwards. -/
inductive Error where
  /-- Go `ConfigTxFileNotFound(text)`. -/
  | configTxFileNotFound (text : String)
  /-- Go `InvalidCreateTx(text)`. -/
  | invalidCreateTx (text : String)
  /-- Go `errors.New(text)`. -/
  | new (text : String)
  /-- Go `errors.WithMessage(cause, text)`. -/
  | withMessage (cause : Error) (text : String)
  /-- An error value produced by a collaborator. -/
  | ext (text : String)
  deriving DecidableEq

/-- The `Error()` method of the error values. -/
def Error.text : Error → String
  | .configTxFileNotFound t => "channel create configuration tx file not found " ++ t
  | .invalidCreateTx t => "Invalid channel create transaction : " ++ t
  | .new t => t
  | .withMessage cause t => t ++ ": " ++ cause.text
  | .ext t => t

/-- Go `cb.Envelope`. -/
structure Envelope where
  Payload : Bytes
  Signature : Bytes
  deriving DecidableEq

/-- Go `cb.Header`; a `nil` byte slice is `none`. -/
structure Header where
  ChannelHeader : Option Bytes
  SignatureHeader : Option Bytes
  deriving DecidableEq

/-- Go `cb.Payload`; a `nil` header pointer is `none`. -/
structure Payload where
  Header : Option Header
  Data : Bytes
  deriving DecidableEq

/-- The fields of `cb.ChannelHeader` that the client reads (`Type_` is Go `Type`). -/
structure ChannelHeader where
  Type_ : Int
  ChannelId : String
  deriving DecidableEq

/-- Go `cb.SignatureHeader`. -/
structure SignatureHeader where
  Creator : Bytes
  Nonce : Bytes
  deriving DecidableEq

/-- Go `cb.ConfigSignature`. -/
structure ConfigSignature where
  SignatureHeader : Bytes
  Signature : Bytes
  deriving DecidableEq

/-- Go `cb.ConfigUpdateEnvelope`. -/
structure ConfigUpdateEnvelope where
  ConfigUpdate : Bytes
  Signatures : List ConfigSignature
  deriving DecidableEq

/-- Go `cb.Block`, reduced to its sequence number and its data. -/
structure Block where
  Number : Nat
  Data : List Bytes
  deriving DecidableEq

/-- The fields of `ChannelCmdFactory` that the client uses. -/
structure ChannelCmdFactory where
  Signer : Signer
  DeliverClient : DeliverClient
  BroadcastFactory : Nat
  deriving DecidableEq

/-- One call of an effectful collaborator, with its arguments. -/
inductive Event where
  | ReadFile (name : String)
  | MakeChannelCreationTransaction (channelID : String) (signer : Signer)
  | NewSignatureHeader (signer : Signer)
  | Sign (signer : Signer) (msg : Bytes)
  | CreateSignedEnvelope (txType : Int) (channelID : String) (signer : Signer)
      (dataMsg : ConfigUpdateEnvelope) (msgVersion : Int) (epoch : Nat)
  | BroadcastFactory (factory : Nat)
  | Send (client : BroadcastClient) (env : Envelope)
  | CloseBroadcast (client : BroadcastClient)
  | NewTimer (d : Nat)
  | StopTimer
  | GetSpecifiedBlock (client : DeliverClient) (num : Nat)
  | CloseDeliver (client : DeliverClient)
  | InitCmdFactory
  | Sleep (ms : Nat)
  | WriteFile (name : String) (data : Bytes) (perm : Nat)
  deriving DecidableEq

/-- The collaborators of `create.go`.  Pure decoders take their input only;
effectful collaborators also take the trace of the calls made before. -/
structure Env where
  /-- Go `int32(cb.HeaderType_CONFIG_UPDATE)`. -/
  HeaderType_CONFIG_UPDATE : Int
  /-- Go `protoutil.UnmarshalEnvelope`. -/
  UnmarshalEnvelope : Bytes → Except Error Envelope
  /-- Go `protoutil.UnmarshalPayload`. -/
  UnmarshalPayload : Bytes → Except Error Payload
  /-- Go `protoutil.UnmarshalChannelHeader`. -/
  UnmarshalChannelHeader : Bytes → Except Error ChannelHeader
  /-- Go `configtx.UnmarshalConfigUpdateEnvelope`. -/
  UnmarshalConfigUpdateEnvelope : Bytes → Except Error ConfigUpdateEnvelope
  /-- Go `protoutil.MarshalOrPanic` on a signature header. -/
  MarshalOrPanic : SignatureHeader → Bytes
  /-- Go `proto.Marshal` on a block. -/
  Marshal : Block → Except Error Bytes
  /-- Go `ioutil.ReadFile`. -/
  ReadFile : List Event → String → Except Error Bytes
  /-- Go `encoder.MakeChannelCreationTransaction` with the sample profile. -/
  MakeChannelCreationTransaction : List Event → String → Signer → Except Error Envelope
  /-- Go `protoutil.NewSignatureHeader`. -/
  NewSignatureHeader : List Event → Signer → Except Error SignatureHeader
  /-- Go `signer.Sign`. -/
  Sign : List Event → Signer → Bytes → Except Error Bytes
  /-- Go `protoutil.CreateSignedEnvelope`. -/
  CreateSignedEnvelope : List Event → Int → String → Signer → ConfigUpdateEnvelope →
    Int → Nat → Except Error Envelope
  /-- Go `cf.BroadcastFactory()`. -/
  BroadcastFactory : List Event → Nat → Except Error BroadcastClient
  /-- Go `broadcastClient.Send`. -/
  Send : List Event → BroadcastClient → Envelope → Except Error Unit
  /-- Whether a value is ready on `timer.C`. -/
  timerFired : List Event → Bool
  /-- Go `cf.DeliverClient.GetSpecifiedBlock`. -/
  GetSpecifiedBlock : List Event → DeliverClient → Nat → Except Error Block
  /-- Go `InitCmdFactory(EndorserNotRequired, PeerDeliverNotRequired, OrdererRequired)`. -/
  InitCmdFactory : List Event → Except Error ChannelCmdFactory
  /-- Go `ioutil.WriteFile`. -/
  WriteFile : List Event → String → Bytes → Nat → Except Error Unit

/-- The package-level variables and the trace of collaborator calls. -/
structure State where
  channelID : String
  channelTxFile : String
  outputBlock : String
  timeout : Nat
  trace : List Event
  deriving DecidableEq

/-- Record one collaborator call. -/
def State.log (s : State) (e : Event) : State :=
  { s with trace := s.trace ++ [e] }

/-- Modelled from the spec: `common.UndefinedParamValue`, the value of a
parameter that was not supplied; the spec calls it the empty identifier
("Validate channelID is non-empty", "channel id \"\""). -/
def UndefinedParamValue : String := ""

/-- Modelled from the spec: `util.ConcatenateBytes`, "the concatenation of
the signature header and the config-update payload". -/
def ConcatenateBytes (a b : Bytes) : Bytes := a ++ b

/-- Go `createChannelFromDefaults`: the default creation transaction for the
current `channelID`. -/
def createChannelFromDefaults (env : Env) (cf : ChannelCmdFactory) (s : State) :
    Except Error Envelope × State :=
  match env.MakeChannelCreationTransaction s.trace s.channelID cf.Signer with
  | .error err => (.error err, s.log (.MakeChannelCreationTransaction s.channelID cf.Signer))
  | .ok chCrtEnv => (.ok chCrtEnv, s.log (.MakeChannelCreationTransaction s.channelID cf.Signer))

/-- Go `createChannelFromConfigTx`. -/
def createChannelFromConfigTx (env : Env) (configTxFileName : String) (s : State) :
    Except Error Envelope × State :=
  match env.ReadFile s.trace configTxFileName with
  | .error err => (.error (.configTxFileNotFound err.text), s.log (.ReadFile configTxFileName))
  | .ok cftx => (env.UnmarshalEnvelope cftx, s.log (.ReadFile configTxFileName))

/-- Go `sanityCheckAndSignConfigTx`. -/
def sanityCheckAndSignConfigTx (env : Env) (envConfigUpdate : Envelope) (signer : Signer)
    (s : State) : Except Error Envelope × State :=
  match env.UnmarshalPayload envConfigUpdate.Payload with
  | .error _ => (.error (.invalidCreateTx "bad payload"), s)
  | .ok payload =>
    match payload.Header with
    | none => (.error (.invalidCreateTx "bad header"), s)
    | some header =>
      match header.ChannelHeader with
      | none => (.error (.invalidCreateTx "bad header"), s)
      | some chBytes =>
        match env.UnmarshalChannelHeader chBytes with
        | .error _ => (.error (.invalidCreateTx "could not unmarshall channel header"), s)
        | .ok ch =>
          if ch.Type_ ≠ env.HeaderType_CONFIG_UPDATE then
            (.error (.invalidCreateTx "bad type"), s)
          else if ch.ChannelId = "" then
            (.error (.invalidCreateTx "empty channel id"), s)
          else
            -- the chainID hack: adopt the payload's identifier when none was set
            let s1 := if s.channelID = "" then { s with channelID := ch.ChannelId } else s
            if ch.ChannelId ≠ s1.channelID then
              (.error (.invalidCreateTx
                ("mismatched channel ID " ++ ch.ChannelId ++ " != " ++ s1.channelID)), s1)
            else
              match env.UnmarshalConfigUpdateEnvelope payload.Data with
              | .error _ => (.error (.invalidCreateTx "Bad config update env"), s1)
              | .ok configUpdateEnv =>
                let s2 := s1.log (.NewSignatureHeader signer)
                match env.NewSignatureHeader s1.trace signer with
                | .error err => (.error err, s2)
                | .ok sigHeader =>
                  let sigHeaderBytes := env.MarshalOrPanic sigHeader
                  let msg := ConcatenateBytes sigHeaderBytes configUpdateEnv.ConfigUpdate
                  let s3 := s2.log (.Sign signer msg)
                  match env.Sign s2.trace signer msg with
                  | .error err => (.error err, s3)
                  | .ok sig =>
                    let configSig : ConfigSignature :=
                      { SignatureHeader := sigHeaderBytes, Signature := sig }
                    let signed : ConfigUpdateEnvelope :=
                      { configUpdateEnv with
                        Signatures := configUpdateEnv.Signatures ++ [configSig] }
                    (env.CreateSignedEnvelope s3.trace env.HeaderType_CONFIG_UPDATE
                        s3.channelID signer signed 0 0,
                      s3.log (.CreateSignedEnvelope env.HeaderType_CONFIG_UPDATE
                        s3.channelID signer signed 0 0))

/-- The `if channelTxFile != ""` statement of `sendCreateChainTransaction`
(lines 159-167): the transaction comes from the file when one was given and
from the defaults otherwise. -/
def assembleCreateTx (env : Env) (cf : ChannelCmdFactory) (s : State) :
    Except Error Envelope × State :=
  if s.channelTxFile ≠ "" then
    createChannelFromConfigTx env s.channelTxFile s
  else
    createChannelFromDefaults env cf s

/-- The tail of `sendCreateChainTransaction` (lines 173-182): get a broadcast
client from the factory, defer its `Close`, `Send` the envelope. -/
def broadcastEnvelope (env : Env) (cf : ChannelCmdFactory) (chCrtEnv : Envelope) (s : State) :
    Except Error Unit × State :=
  match env.BroadcastFactory s.trace cf.BroadcastFactory with
  | .error err =>
    (.error (.withMessage err "error getting broadcast client"),
      s.log (.BroadcastFactory cf.BroadcastFactory))
  | .ok broadcastClient =>
    let s1 := s.log (.BroadcastFactory cf.BroadcastFactory)
    let err := env.Send s1.trace broadcastClient chCrtEnv
    let s2 := s1.log (.Send broadcastClient chCrtEnv)
    -- the deferred Close runs when the function returns
    (err, s2.log (.CloseBroadcast broadcastClient))

/-- Go `sendCreateChainTransaction`. -/
def sendCreateChainTransaction (env : Env) (cf : ChannelCmdFactory) (s : State) :
    Except Error Unit × State :=
  match assembleCreateTx env cf s with
  | (.error err, s1) => (.error err, s1)
  | (.ok chCrtEnv, s1) =>
    match sanityCheckAndSignConfigTx env chCrtEnv cf.Signer s1 with
    | (.error err, s2) => (.error err, s2)
    | (.ok signedEnv, s2) => broadcastEnvelope env cf signedEnv s2

/-- What one iteration of the polling loop of `getGenesisBlock` does: it ends
the loop with a result, or goes round again with a fresh factory. -/
inductive PollOutcome where
  | done (r : Except Error Block) (s : State)
  | again (cf : ChannelCmdFactory) (s : State)
  deriving DecidableEq

/-- One iteration of the `for { select { ... } }` loop of `getGenesisBlock`. -/
def pollOnce (env : Env) (cf : ChannelCmdFactory) (s : State) : PollOutcome :=
  if env.timerFired s.trace then
    -- case <-timer.C
    .done (.error (.new "timeout waiting for channel creation"))
      (s.log (.CloseDeliver cf.DeliverClient))
  else
    -- default
    let s1 := s.log (.GetSpecifiedBlock cf.DeliverClient 0)
    match env.GetSpecifiedBlock s.trace cf.DeliverClient 0 with
    | .error _ =>
      let s2 := s1.log (.CloseDeliver cf.DeliverClient)
      let s3 := s2.log .InitCmdFactory
      match env.InitCmdFactory s2.trace with
      | .error err => .done (.error (.withMessage err "failed connecting")) s3
      | .ok cf1 => .again cf1 (s3.log (.Sleep 200))
    | .ok block => .done (.ok block) (s1.log (.CloseDeliver cf.DeliverClient))

/-- The `for` loop of `getGenesisBlock`; `fuel` bounds the number of
iterations, `none` means the bound was reached. -/
def pollLoop (env : Env) : Nat → ChannelCmdFactory → State → Option (Except Error Block × State)
  | 0, _, _ => none
  | fuel + 1, cf, s =>
    match pollOnce env cf s with
    | .done r s1 => some (r, s1)
    | .again cf1 s1 => pollLoop env fuel cf1 s1

/-- Go `getGenesisBlock`: start the timer, run the loop, stop the timer on
the way out (`defer timer.Stop()`). -/
def getGenesisBlock (env : Env) (fuel : Nat) (cf : ChannelCmdFactory) (s : State) :
    Option (Except Error Block × State) :=
  match pollLoop env fuel cf (s.log (.NewTimer s.timeout)) with
  | none => none
  | some (r, s1) => some (r, s1.log .StopTimer)

/-- The state in which iteration `k` (counted from 0) of the polling loop
starts, when the loop gets that far. -/
def pollState (env : Env) : Nat → ChannelCmdFactory → State → Option (ChannelCmdFactory × State)
  | 0, cf, s => some (cf, s)
  | k + 1, cf, s =>
    match pollOnce env cf s with
    | .done _ _ => none
    | .again cf1 s1 => pollState env k cf1 s1

/-- Go `executeCreate`. -/
def executeCreate (env : Env) (fuel : Nat) (cf : ChannelCmdFactory) (s : State) :
    Option (Except Error Unit × State) :=
  match sendCreateChainTransaction env cf s with
  | (.error err, s1) => some (.error err, s1)
  | (.ok _, s1) =>
    match getGenesisBlock env fuel cf s1 with
    | none => none
    | some (.error err, s2) => some (.error err, s2)
    | some (.ok block, s2) =>
      match env.Marshal block with
      | .error err => some (.error err, s2)
      | .ok b =>
        let file :=
          if s2.outputBlock ≠ UndefinedParamValue then s2.outputBlock
          else s2.channelID ++ ".block"
        some (env.WriteFile s2.trace file b 0o644, s2.log (.WriteFile file b 0o644))

/-- Go `create`, the cobra entry point; a `nil` factory is `none`. -/
def create (env : Env) (fuel : Nat) (cf : Option ChannelCmdFactory) (s : State) :
    Option (Except Error Unit × State) :=
  if s.channelID = UndefinedParamValue then
    some (.error (.new "must supply channel ID"), s)
  else
    match cf with
    | some cf1 => executeCreate env fuel cf1 s
    | none =>
      match env.InitCmdFactory s.trace with
      | .error err => some (.error err, s.log .InitCmdFactory)
      | .ok cf1 => executeCreate env fuel cf1 (s.log .InitCmdFactory)

/-- Go `Create`: store the two arguments in the package variables, then do
what `create` does. -/
def Create (env : Env) (fuel : Nat) (cf : Option ChannelCmdFactory) (channelid txFile : String)
    (s : State) : Option (Except Error Unit × State) :=
  let s0 := { s with channelID := channelid, channelTxFile := txFile }
  if s0.channelID = UndefinedParamValue then
    some (.error (.new "must supply channel ID"), s0)
  else
    match cf with
    | some cf1 => executeCreate env fuel cf1 s0
    | none =>
      match env.InitCmdFactory s0.trace with
      | .error err => some (.error err, s0.log .InitCmdFactory)
      | .ok cf1 => executeCreate env fuel cf1 (s0.log .InitCmdFactory)

/-! Observations on traces. -/

/-- Number of `GetSpecifiedBlock` calls recorded in a trace. -/
def attempts (tr : List Event) : Nat :=
  tr.countP fun e => match e with
    | .GetSpecifiedBlock _ _ => true
    | _ => false

/-- Number of `InitCmdFactory` calls recorded in a trace. -/
def reconnections (tr : List Event) : Nat :=
  tr.countP fun e => match e with
    | .InitCmdFactory => true
    | _ => false

/-- The delivery connections closed in a trace, one entry per `Close`. -/
def closedDeliver (tr : List Event) : List DeliverClient :=
  tr.filterMap fun e => match e with
    | .CloseDeliver c => some c
    | _ => none

/-- The file writes recorded in a trace: name, data and permission bits. -/
def fileWrites (tr : List Event) : List (String × Bytes × Nat) :=
  tr.filterMap fun e => match e with
    | .WriteFile name data perm => some (name, data, perm)
    | _ => none

/-- The `Sign` calls recorded in a trace: signer and message. -/
def signCalls (tr : List Event) : List (Signer × Bytes) :=
  tr.filterMap fun e => match e with
    | .Sign signer msg => some (signer, msg)
    | _ => none

/-- The calls that reach the ordering or delivery service or build a
factory: everything except signing, reading and writing files and timers. -/
def networkCalls (tr : List Event) : List Event :=
  tr.filter fun e => match e with
    | .BroadcastFactory _ => true
    | .Send _ _ => true
    | .CloseBroadcast _ => true
    | .GetSpecifiedBlock _ _ => true
    | .CloseDeliver _ => true
    | .InitCmdFactory => true
    | _ => false

/-- The calls of a polling run that holds the connections `conns` in turn:
on every connection but the last a `GetSpecifiedBlock(0)`, its `Close`, an
`InitCmdFactory` and the 200 ms sleep; on the last one a
`GetSpecifiedBlock(0)` and its `Close`. -/
def pollEvents : List DeliverClient → List Event
  | [] => []
  | [c] => [.GetSpecifiedBlock c 0, .CloseDeliver c]
  | c :: c1 :: rest =>
    [.GetSpecifiedBlock c 0, .CloseDeliver c, .InitCmdFactory, .Sleep 200] ++
      pollEvents (c1 :: rest)

/-- Whether the factories `cfs` are, in order, what `env.InitCmdFactory`
returns along a polling run that starts at trace `tr` holding connection `c`:
each call is made when the attempt on the connection held and the `Close` of
that connection are the last two calls, and the next connection held is the
`DeliverClient` of the factory just returned. -/
def factoryChain (env : Env) : List Event → DeliverClient → List ChannelCmdFactory → Bool
  | _, _, [] => true
  | tr, c, cf1 :: rest =>
    decide (env.InitCmdFactory (tr ++ [.GetSpecifiedBlock c 0, .CloseDeliver c]) = .ok cf1) &&
      factoryChain env
        (tr ++ [.GetSpecifiedBlock c 0, .CloseDeliver c, .InitCmdFactory, .Sleep 200])
        cf1.DeliverClient rest

/-- Permission bits that give the owner read and write and nobody anything
else: no execute bit, nothing for group or others. -/
def ownerReadWriteOnly (perm : Nat) : Prop :=
  perm % 0o1000 = 0o600

/-- Bit `i` (0 is "others execute", 8 is "owner read") of permission bits. -/
def permBit (perm i : Nat) : Bool :=
  perm / 2 ^ i % 2 = 1

/-! A small concrete world, used to run the definitions. -/

/-- Channel names of the toy encoding. -/
def demoChannel : Nat → String
  | 0 => ""
  | 1 => "mychannel"
  | _ => "otherchannel"

/-- Code of a channel name in the toy encoding. -/
def demoCode (name : String) : Nat :=
  if name = "" then 0 else if name = "mychannel" then 1 else 2

/-- Toy payload decoder: `0 :: d` has no header, `1 :: d` a header without
channel header, `(t + 2) :: c :: d` a channel header `[t, c]` and data `d`. -/
def demoUnmarshalPayload : Bytes → Except Error Payload
  | 0 :: d => .ok { Header := none, Data := d }
  | 1 :: d => .ok { Header := some { ChannelHeader := none, SignatureHeader := none }, Data := d }
  | (t + 2) :: c :: d =>
    .ok { Header := some { ChannelHeader := some [t, c], SignatureHeader := none }, Data := d }
  | _ => .error (.ext "proto: cannot parse payload")

/-- Toy channel-header decoder: `[t, c]` has type `t` and channel `demoChannel c`. -/
def demoUnmarshalChannelHeader : Bytes → Except Error ChannelHeader
  | [t, c] => .ok { Type_ := t, ChannelId := demoChannel c }
  | _ => .error (.ext "proto: cannot parse channel header")

/-- Toy config-update decoder: empty data does not decode. -/
def demoUnmarshalConfigUpdateEnvelope : Bytes → Except Error ConfigUpdateEnvelope
  | [] => .error (.ext "proto: cannot parse config update envelope")
  | d => .ok { ConfigUpdate := d, Signatures := [] }

/-- Toy file system: two transaction files. -/
def demoReadFile (name : String) : Except Error Bytes :=
  if name = "mychannel.tx" then .ok [4, 1, 9]
  else if name = "otherchannel.tx" then .ok [4, 2, 9]
  else .error (.ext "no such file")

/-- The genesis block the toy delivery service serves. -/
def demoBlock : Block := { Number := 0, Data := [[7, 7]] }

/-- A world in which the delivery service fails while fewer than `fails`
attempts were made and the deadline timer fires once `deadline` attempts
were made. -/
def demoEnv (fails deadline : Nat) : Env where
  HeaderType_CONFIG_UPDATE := 2
  UnmarshalEnvelope := fun b => if b = [] then .error (.ext "proto: empty") else
    .ok { Payload := b, Signature := [] }
  UnmarshalPayload := demoUnmarshalPayload
  UnmarshalChannelHeader := demoUnmarshalChannelHeader
  UnmarshalConfigUpdateEnvelope := demoUnmarshalConfigUpdateEnvelope
  MarshalOrPanic := fun h => h.Creator ++ h.Nonce
  Marshal := fun b => if b.Data = [] then .error (.ext "proto: nothing to marshal") else
    .ok (b.Number :: b.Data.flatten)
  ReadFile := fun _ name => demoReadFile name
  MakeChannelCreationTransaction := fun _ channelID _ => .ok
    { Payload := [4, demoCode channelID, 5], Signature := [] }
  NewSignatureHeader := fun tr signer => .ok { Creator := [signer], Nonce := [tr.length] }
  Sign := fun _ signer msg => .ok [signer, msg.sum]
  CreateSignedEnvelope := fun _ txType channelID signer dataMsg _ _ => .ok
    { Payload := (txType.toNat + 2) :: demoCode channelID :: dataMsg.ConfigUpdate,
      Signature := [signer] }
  BroadcastFactory := fun _ factory => .ok (factory + 100)
  Send := fun _ _ _ => .ok ()
  timerFired := fun tr => decide (deadline ≤ attempts tr)
  GetSpecifiedBlock := fun tr _ _ =>
    if attempts tr < fails then .error (.ext "BlockNotFound") else .ok demoBlock
  InitCmdFactory := fun tr => .ok
    { Signer := 1, DeliverClient := reconnections tr + 1, BroadcastFactory := 0 }
  WriteFile := fun _ _ _ _ => .ok ()

/-- The world `demoEnv 2 10` with a factory whose connections are numbered
7, 14, 21, ... -/
def demoReconnectEnv : Env :=
  { demoEnv 2 10 with
    InitCmdFactory := fun tr => .ok
      { Signer := 1, DeliverClient := 7 * (reconnections tr + 1), BroadcastFactory := 0 } }

/-- The factory the toy runs start with. -/
def demoFactory : ChannelCmdFactory := { Signer := 1, DeliverClient := 0, BroadcastFactory := 0 }

/-- The state the toy runs start in: no transaction file, no output path. -/
def demoState (channelID : String) : State :=
  { channelID := channelID, channelTxFile := "", outputBlock := "", timeout := 5000, trace := [] }

/-! Properties of the embedding. -/

/-- Iterations that go round again are skipped by the loop: from the state of
iteration `k` the loop continues with the remaining fuel. -/
theorem pollLoop_of_pollState (env : Env) :
    ∀ (k : Nat) (cf : ChannelCmdFactory) (s : State) (cf1 : ChannelCmdFactory) (s1 : State),
      pollState env k cf s = some (cf1, s1) →
      ∀ fuel, pollLoop env (k + fuel) cf s = pollLoop env fuel cf1 s1 := by
  intro k
  induction k with
  | zero =>
    intro cf s cf1 s1 h fuel
    simp only [pollState, Option.some.injEq, Prod.mk.injEq] at h
    obtain ⟨rfl, rfl⟩ := h
    simp
  | succ k ih =>
    intro cf s cf1 s1 h fuel
    have hk : k + 1 + fuel = (k + fuel) + 1 := by omega
    rw [hk]
    simp only [pollState] at h
    simp only [pollLoop]
    cases hp : pollOnce env cf s with
    | done r s2 => simp [hp] at h
    | again cf2 s2 =>
      simp only [hp] at h
      simp only [hp]
      exact ih cf2 s2 cf1 s1 h fuel

/-- Once the loop has ended at iteration `k` there is no later iteration. -/
theorem pollState_none_of_done (env : Env) :
    ∀ (k : Nat) (cf : ChannelCmdFactory) (s : State) (cf1 : ChannelCmdFactory) (s1 : State)
      (r : Except Error Block) (s2 : State),
      pollState env k cf s = some (cf1, s1) → pollOnce env cf1 s1 = .done r s2 →
      ∀ j, k < j → pollState env j cf s = none := by
  intro k
  induction k with
  | zero =>
    intro cf s cf1 s1 r s2 h hd j hj
    simp only [pollState, Option.some.injEq, Prod.mk.injEq] at h
    obtain ⟨rfl, rfl⟩ := h
    obtain ⟨j, rfl⟩ := Nat.exists_eq_succ_of_ne_zero (Nat.pos_iff_ne_zero.mp hj)
    simp [pollState, hd]
  | succ k ih =>
    intro cf s cf1 s1 r s2 h hd j hj
    obtain ⟨j, rfl⟩ := Nat.exists_eq_succ_of_ne_zero (Nat.pos_iff_ne_zero.mp (by omega : 0 < j))
    simp only [pollState] at h ⊢
    cases hp : pollOnce env cf s with
    | done r3 s3 => simp
    | again cf3 s3 =>
      simp only [hp] at h
      simp only
      exact ih cf3 s3 cf1 s1 r s2 h hd j (by omega)

/-- A polling run over `c :: rest` closes exactly these connections, once
each and in this order. -/
theorem closedDeliver_pollEvents :
    ∀ (rest : List DeliverClient) (c : DeliverClient),
      closedDeliver (pollEvents (c :: rest)) = c :: rest := by
  intro rest
  induction rest with
  | nil =>
    intro c
    simp [pollEvents, closedDeliver]
  | cons c1 rest ih =>
    intro c
    have h := ih c1
    simp only [closedDeliver] at h
    simp [pollEvents, closedDeliver, List.filterMap_append, h]

/-- A polling run over `c :: rest` calls `InitCmdFactory` once per connection
in `rest`. -/
theorem reconnections_pollEvents :
    ∀ (rest : List DeliverClient) (c : DeliverClient),
      reconnections (pollEvents (c :: rest)) = rest.length := by
  intro rest
  induction rest with
  | nil =>
    intro c
    simp [pollEvents, reconnections]
  | cons c1 rest ih =>
    intro c
    have h := ih c1
    simp only [reconnections] at h
    simp [pollEvents, reconnections, List.countP_append, List.countP_cons, h]

/-- A polling run over `c :: rest` makes one attempt per connection. -/
theorem attempts_pollEvents :
    ∀ (rest : List DeliverClient) (c : DeliverClient),
      attempts (pollEvents (c :: rest)) = rest.length + 1 := by
  intro rest
  induction rest with
  | nil =>
    intro c
    simp [pollEvents, attempts]
  | cons c1 rest ih =>
    intro c
    have h := ih c1
    simp only [attempts] at h
    simp [pollEvents, attempts, List.countP_append, List.countP_cons, h]

/-- The loop of C5: with `N` failing attempts ahead and then a success, the
loop returns the block; the factories it went through are `N` returns of
`env.InitCmdFactory`, and its calls are those of a polling run over the
initial connection and the connections of these factories. -/
theorem pollLoop_after_failures (env : Env) (b : Block) (T : Nat)
    (hfail : ∀ tr c, attempts tr < T → ∃ e, env.GetSpecifiedBlock tr c 0 = .error e)
    (hok : ∀ tr c, attempts tr = T → env.GetSpecifiedBlock tr c 0 = .ok b)
    (hinit : ∀ tr, ∃ cf1, env.InitCmdFactory tr = .ok cf1)
    (htimer : ∀ tr, attempts tr ≤ T → env.timerFired tr = false) :
    ∀ (N : Nat) (cf : ChannelCmdFactory) (s : State), attempts s.trace + N = T →
      ∀ fuel, N < fuel → ∃ cfs : List ChannelCmdFactory,
        cfs.length = N ∧
        factoryChain env s.trace cf.DeliverClient cfs = true ∧
        pollLoop env fuel cf s =
          some (.ok b,
            { s with
              trace := s.trace ++
                pollEvents (cf.DeliverClient :: cfs.map ChannelCmdFactory.DeliverClient) }) := by
  intro N
  induction N with
  | zero =>
    intro cf s hT fuel hfuel
    obtain ⟨fuel, rfl⟩ := Nat.exists_eq_succ_of_ne_zero (Nat.pos_iff_ne_zero.mp hfuel)
    have h1 : env.timerFired s.trace = false := htimer _ (by omega)
    have h2 : env.GetSpecifiedBlock s.trace cf.DeliverClient 0 = .ok b := hok _ _ (by omega)
    refine ⟨[], rfl, rfl, ?_⟩
    simp [pollLoop, pollOnce, h1, h2, State.log, pollEvents]
  | succ N ih =>
    intro cf s hT fuel hfuel
    obtain ⟨fuel, rfl⟩ := Nat.exists_eq_succ_of_ne_zero (Nat.pos_iff_ne_zero.mp (by omega : 0 < fuel))
    have h1 : env.timerFired s.trace = false := htimer _ (by omega)
    obtain ⟨e, h2⟩ := hfail s.trace cf.DeliverClient (by omega)
    obtain ⟨cf1, h3⟩ := hinit
      (s.trace ++ [.GetSpecifiedBlock cf.DeliverClient 0, .CloseDeliver cf.DeliverClient])
    have hp : pollOnce env cf s = .again cf1
        { s with
          trace := s.trace ++ [.GetSpecifiedBlock cf.DeliverClient 0,
            .CloseDeliver cf.DeliverClient, .InitCmdFactory, .Sleep 200] } := by
      simp [pollOnce, h1, h2, h3, State.log]
    have ha : attempts (s.trace ++ [.GetSpecifiedBlock cf.DeliverClient 0,
          .CloseDeliver cf.DeliverClient, .InitCmdFactory, .Sleep 200]) =
        attempts s.trace + 1 := by
      simp [attempts, List.countP_append, List.countP_cons]
    obtain ⟨cfs, hlen, hchain, hl⟩ := ih cf1
      { s with
        trace := s.trace ++ [.GetSpecifiedBlock cf.DeliverClient 0,
          .CloseDeliver cf.DeliverClient, .InitCmdFactory, .Sleep 200] }
      (by simp only [ha]; omega) fuel (by omega)
    refine ⟨cf1 :: cfs, by simp [hlen], ?_, ?_⟩
    · simp only [factoryChain, h3, decide_True, Bool.true_and]
      exact hchain
    · simp only [pollLoop, hp]
      rw [hl]
      simp [pollEvents, List.append_assoc]

/-- Assembling the transaction leaves the package variables alone, writes no
file and makes no network call. -/
theorem assembleCreateTx_frame (env : Env) (cf : ChannelCmdFactory) (s : State) :
    (assembleCreateTx env cf s).2.channelID = s.channelID ∧
      (assembleCreateTx env cf s).2.outputBlock = s.outputBlock ∧
      fileWrites (assembleCreateTx env cf s).2.trace = fileWrites s.trace ∧
      networkCalls (assembleCreateTx env cf s).2.trace = networkCalls s.trace := by
  unfold assembleCreateTx createChannelFromConfigTx createChannelFromDefaults
  repeat' split
  all_goals simp [State.log, fileWrites, networkCalls, List.filterMap_append, List.filter_append]

/-- The sanity check writes no file and makes no network call; it changes
`channelID` only when that was empty. -/
theorem sanityCheck_frame (env : Env) (envConfigUpdate : Envelope) (signer : Signer)
    (s : State) :
    (sanityCheckAndSignConfigTx env envConfigUpdate signer s).2.outputBlock = s.outputBlock ∧
      fileWrites (sanityCheckAndSignConfigTx env envConfigUpdate signer s).2.trace =
        fileWrites s.trace ∧
      networkCalls (sanityCheckAndSignConfigTx env envConfigUpdate signer s).2.trace =
        networkCalls s.trace ∧
      (s.channelID ≠ "" →
        (sanityCheckAndSignConfigTx env envConfigUpdate signer s).2.channelID = s.channelID) := by
  unfold sanityCheckAndSignConfigTx
  by_cases hs : s.channelID = ""
  · simp only [hs, if_true, if_false]
    repeat' split
    all_goals simp [State.log, fileWrites, networkCalls, List.filterMap_append, List.filter_append]
  · simp only [hs, if_true, if_false]
    repeat' split
    all_goals simp [State.log, fileWrites, networkCalls, List.filterMap_append, List.filter_append]

/-- Broadcasting leaves the package variables alone and writes no file. -/
theorem broadcastEnvelope_frame (env : Env) (cf : ChannelCmdFactory) (chCrtEnv : Envelope)
    (s : State) :
    (broadcastEnvelope env cf chCrtEnv s).2.channelID = s.channelID ∧
      (broadcastEnvelope env cf chCrtEnv s).2.outputBlock = s.outputBlock ∧
      fileWrites (broadcastEnvelope env cf chCrtEnv s).2.trace = fileWrites s.trace := by
  unfold broadcastEnvelope
  split
  all_goals simp [State.log, fileWrites, List.filterMap_append]

/-- The whole of `sendCreateChainTransaction` writes no file, keeps
`outputBlock`, and keeps a non-empty `channelID`. -/
theorem sendCreateChainTransaction_frame (env : Env) (cf : ChannelCmdFactory) (s : State) :
    (sendCreateChainTransaction env cf s).2.outputBlock = s.outputBlock ∧
      fileWrites (sendCreateChainTransaction env cf s).2.trace = fileWrites s.trace ∧
      (s.channelID ≠ "" → (sendCreateChainTransaction env cf s).2.channelID = s.channelID) := by
  obtain ⟨a1, a2, a3, _⟩ := assembleCreateTx_frame env cf s
  unfold sendCreateChainTransaction
  cases ha : assembleCreateTx env cf s with
  | mk r s1 =>
    rw [ha] at a1 a2 a3
    simp only at a1 a2 a3
    cases r with
    | error err => exact ⟨a2, a3, fun _ => a1⟩
    | ok chCrtEnv =>
      simp only
      obtain ⟨b1, b2, _, b4⟩ := sanityCheck_frame env chCrtEnv cf.Signer s1
      cases hb : sanityCheckAndSignConfigTx env chCrtEnv cf.Signer s1 with
      | mk r2 s2 =>
        rw [hb] at b1 b2 b4
        simp only at b1 b2 b4
        cases r2 with
        | error err =>
          exact ⟨b1.trans a2, b2.trans a3, fun h => (b4 (by rw [a1]; exact h)).trans a1⟩
        | ok signedEnv =>
          simp only
          obtain ⟨c1, c2, c3⟩ := broadcastEnvelope_frame env cf signedEnv s2
          exact ⟨c2.trans (b1.trans a2), c3.trans (b2.trans a3),
            fun h => c1.trans ((b4 (by rw [a1]; exact h)).trans a1)⟩

/-- One iteration of the polling loop leaves the package variables alone and
writes no file. -/
theorem pollOnce_frame (env : Env) (cf : ChannelCmdFactory) (s : State) :
    (∀ r s1, pollOnce env cf s = .done r s1 →
        s1.channelID = s.channelID ∧ s1.outputBlock = s.outputBlock ∧
          fileWrites s1.trace = fileWrites s.trace) ∧
      (∀ cf1 s1, pollOnce env cf s = .again cf1 s1 →
        s1.channelID = s.channelID ∧ s1.outputBlock = s.outputBlock ∧
          fileWrites s1.trace = fileWrites s.trace) := by
  unfold pollOnce
  dsimp only
  cases env.timerFired s.trace <;>
    cases env.GetSpecifiedBlock s.trace cf.DeliverClient 0 <;>
    cases env.InitCmdFactory
      ((s.log (.GetSpecifiedBlock cf.DeliverClient 0)).log (.CloseDeliver cf.DeliverClient)).trace
  all_goals
    refine ⟨fun r s1 h => ?_, fun cf1 s1 h => ?_⟩
  all_goals
    simp only [Bool.false_eq_true, if_true, if_false, PollOutcome.done.injEq,
      PollOutcome.again.injEq, reduceCtorEq] at h
  all_goals
    obtain ⟨_, rfl⟩ := h
    simp [State.log, fileWrites, List.filterMap_append]

/-- The polling loop leaves the package variables alone and writes no file. -/
theorem pollLoop_frame (env : Env) :
    ∀ (fuel : Nat) (cf : ChannelCmdFactory) (s : State) (r : Except Error Block) (s1 : State),
      pollLoop env fuel cf s = some (r, s1) →
      s1.channelID = s.channelID ∧ s1.outputBlock = s.outputBlock ∧
        fileWrites s1.trace = fileWrites s.trace := by
  intro fuel
  induction fuel with
  | zero =>
    intro cf s r s1 h
    simp [pollLoop] at h
  | succ fuel ih =>
    intro cf s r s1 h
    simp only [pollLoop] at h
    cases hp : pollOnce env cf s with
    | done r2 s2 =>
      simp only [hp, Option.some.injEq, Prod.mk.injEq] at h
      obtain ⟨_, rfl⟩ := h
      exact (pollOnce_frame env cf s).1 _ _ hp
    | again cf2 s2 =>
      simp only [hp] at h
      obtain ⟨a1, a2, a3⟩ := (pollOnce_frame env cf s).2 _ _ hp
      obtain ⟨b1, b2, b3⟩ := ih cf2 s2 r s1 h
      exact ⟨b1.trans a1, b2.trans a2, b3.trans a3⟩

/-- Waiting for the genesis block leaves the package variables alone and
writes no file. -/
theorem getGenesisBlock_frame (env : Env) (fuel : Nat) (cf : ChannelCmdFactory) (s : State)
    (r : Except Error Block) (s1 : State) (h : getGenesisBlock env fuel cf s = some (r, s1)) :
    s1.channelID = s.channelID ∧ s1.outputBlock = s.outputBlock ∧
      fileWrites s1.trace = fileWrites s.trace := by
  unfold getGenesisBlock at h
  cases hl : pollLoop env fuel cf (s.log (.NewTimer s.timeout)) with
  | none => simp [hl] at h
  | some p =>
    obtain ⟨r2, s2⟩ := p
    simp only [hl, Option.some.injEq, Prod.mk.injEq] at h
    obtain ⟨_, rfl⟩ := h
    obtain ⟨a1, a2, a3⟩ := pollLoop_frame env fuel cf _ r2 s2 hl
    refine ⟨?_, ?_, ?_⟩
    · simpa [State.log] using a1
    · simpa [State.log] using a2
    · rw [show fileWrites (s2.log .StopTimer).trace = fileWrites s2.trace by
        simp [State.log, fileWrites, List.filterMap_append], a3]
      simp [State.log, fileWrites, List.filterMap_append]

/-- A run of `executeCreate` that starts with a non-empty `channelID` ends
with the same `channelID`. -/
theorem executeCreate_channelID (env : Env) (fuel : Nat) (cf : ChannelCmdFactory) (s : State)
    (hs : s.channelID ≠ "") (r : Except Error Unit) (s1 : State)
    (h : executeCreate env fuel cf s = some (r, s1)) : s1.channelID = s.channelID := by
  obtain ⟨_, _, a3⟩ := sendCreateChainTransaction_frame env cf s
  have a := a3 hs
  unfold executeCreate at h
  cases hsend : sendCreateChainTransaction env cf s with
  | mk r1 s2 =>
    rw [hsend] at a h
    simp only at a
    cases r1 with
    | error err =>
      simp only [Option.some.injEq, Prod.mk.injEq] at h
      obtain ⟨_, rfl⟩ := h
      exact a
    | ok u =>
      simp only at h
      cases hg : getGenesisBlock env fuel cf s2 with
      | none => simp [hg] at h
      | some p =>
        obtain ⟨r3, s3⟩ := p
        obtain ⟨b1, _, _⟩ := getGenesisBlock_frame env fuel cf s2 r3 s3 hg
        rw [hg] at h
        cases r3 with
        | error err =>
          simp only [Option.some.injEq, Prod.mk.injEq] at h
          obtain ⟨_, rfl⟩ := h
          exact b1.trans a
        | ok block =>
          simp only at h
          cases hm : env.Marshal block with
          | error err =>
            simp only [hm, Option.some.injEq, Prod.mk.injEq] at h
            obtain ⟨_, rfl⟩ := h
            exact b1.trans a
          | ok b =>
            simp only [hm, Option.some.injEq, Prod.mk.injEq] at h
            obtain ⟨_, rfl⟩ := h
            simp only [State.log]
            exact b1.trans a

/-- The rejecting paths of the sanity check: an `InvalidCreateTx` error and an
unchanged state. -/
theorem sanityCheck_reject_core (env : Env) (envConfigUpdate : Envelope)
    (signer : Signer) (s : State) (payload : Payload)
    (hp : env.UnmarshalPayload envConfigUpdate.Payload = .ok payload)
    (hbad : payload.Header = none ∨
      (∃ header, payload.Header = some header ∧ header.ChannelHeader = none) ∨
      (∃ header chBytes ch, payload.Header = some header ∧
        header.ChannelHeader = some chBytes ∧
        env.UnmarshalChannelHeader chBytes = .ok ch ∧
        (ch.Type_ ≠ env.HeaderType_CONFIG_UPDATE ∨ ch.ChannelId = "" ∨
          (ch.ChannelId ≠ "" ∧ s.channelID ≠ "" ∧ ch.ChannelId ≠ s.channelID)))) :
    (∃ text, (sanityCheckAndSignConfigTx env envConfigUpdate signer s).1 =
        .error (.invalidCreateTx text)) ∧
      (sanityCheckAndSignConfigTx env envConfigUpdate signer s).2 = s := by
  unfold sanityCheckAndSignConfigTx
  rcases hbad with h | ⟨header, h1, h2⟩ | ⟨header, chBytes, ch, h1, h2, h3, h4⟩
  · simp [hp, h]
  · simp [hp, h1, h2]
  · simp only [hp, h1, h2, h3]
    by_cases hty : ch.Type_ = env.HeaderType_CONFIG_UPDATE
    · by_cases hid : ch.ChannelId = ""
      · simp [hty, hid]
      · rcases h4 with h4 | h4 | ⟨_, hs, hne⟩
        · exact absurd hty h4
        · exact absurd h4 hid
        · simp [hty, hid, hs, hne]
    · simp [hty]

/-- Go `Create` is the two assignments followed by what `create` does. -/
theorem Create_eq_create (env : Env) (fuel : Nat) (cf : Option ChannelCmdFactory)
    (channelid txFile : String) (s : State) :
    Create env fuel cf channelid txFile s =
      create env fuel cf { s with channelID := channelid, channelTxFile := txFile } := by
  simp only [Create, create]

/-- C1: when the decoded payload has no header or no channel header, or its
channel header type is not CONFIG_UPDATE, or its channel identifier is empty,
or its channel identifier is non-empty and differs from a non-empty expected
identifier, `sanityCheckAndSignConfigTx` returns an `InvalidCreateTx` error,
leaves the state as it was, and so never invokes `Sign`. -/
theorem sanityCheck_rejects_without_signing (env : Env) (envConfigUpdate : Envelope)
    (signer : Signer) (s : State) (payload : Payload)
    (hp : env.UnmarshalPayload envConfigUpdate.Payload = .ok payload)
    (hbad : payload.Header = none ∨
      (∃ header, payload.Header = some header ∧ header.ChannelHeader = none) ∨
      (∃ header chBytes ch, payload.Header = some header ∧
        header.ChannelHeader = some chBytes ∧
        env.UnmarshalChannelHeader chBytes = .ok ch ∧
        (ch.Type_ ≠ env.HeaderType_CONFIG_UPDATE ∨ ch.ChannelId = "" ∨
          (ch.ChannelId ≠ "" ∧ s.channelID ≠ "" ∧ ch.ChannelId ≠ s.channelID)))) :
    (∃ text, (sanityCheckAndSignConfigTx env envConfigUpdate signer s).1 =
        .error (.invalidCreateTx text)) ∧
      (sanityCheckAndSignConfigTx env envConfigUpdate signer s).2 = s ∧
      signCalls (sanityCheckAndSignConfigTx env envConfigUpdate signer s).2.trace =
        signCalls s.trace := by
  have key := sanityCheck_reject_core env envConfigUpdate signer s payload hp hbad
  exact ⟨key.1, key.2, by rw [key.2]⟩

/-- C1 at a concrete input: a transaction for "otherchannel" checked against
the expected identifier "mychannel". -/
theorem sanityCheck_rejects_without_signing_witness :
    (demoEnv 0 0).UnmarshalPayload (Envelope.mk [4, 2, 9] []).Payload =
        .ok { Header := some { ChannelHeader := some [2, 2], SignatureHeader := none },
              Data := [9] } ∧
      ((∃ text, (sanityCheckAndSignConfigTx (demoEnv 0 0) (Envelope.mk [4, 2, 9] []) 1
          (demoState "mychannel")).1 = .error (.invalidCreateTx text)) ∧
        (sanityCheckAndSignConfigTx (demoEnv 0 0) (Envelope.mk [4, 2, 9] []) 1
          (demoState "mychannel")).2 = demoState "mychannel" ∧
        signCalls (sanityCheckAndSignConfigTx (demoEnv 0 0) (Envelope.mk [4, 2, 9] []) 1
          (demoState "mychannel")).2.trace = signCalls (demoState "mychannel").trace) :=
  ⟨rfl, sanityCheck_rejects_without_signing (demoEnv 0 0) (Envelope.mk [4, 2, 9] []) 1
    (demoState "mychannel") _ rfl
    (Or.inr (Or.inr ⟨_, [2, 2], ⟨2, "otherchannel"⟩, rfl, rfl, rfl,
      Or.inr (Or.inr ⟨by decide, by decide, by decide⟩)⟩))⟩

/-- C2: for an envelope whose payload decodes to a CONFIG_UPDATE channel
header with a non-empty channel identifier and a decodable config-update
envelope, and an expected identifier that is empty or equal to it, if the
signer succeeds (`NewSignatureHeader`, `Sign` and the final
`CreateSignedEnvelope`), `sanityCheckAndSignConfigTx` returns the envelope
that `CreateSignedEnvelope` built for the payload's channel identifier, and
`channelID` is that identifier afterwards. -/
theorem sanityCheck_resolves_channel (env : Env) (envConfigUpdate : Envelope)
    (signer : Signer) (s : State) (payload : Payload) (header : Header) (chBytes : Bytes)
    (ch : ChannelHeader) (configUpdateEnv : ConfigUpdateEnvelope)
    (hp : env.UnmarshalPayload envConfigUpdate.Payload = .ok payload)
    (hh : payload.Header = some header)
    (hc : header.ChannelHeader = some chBytes)
    (hch : env.UnmarshalChannelHeader chBytes = .ok ch)
    (hty : ch.Type_ = env.HeaderType_CONFIG_UPDATE)
    (hid : ch.ChannelId ≠ "")
    (hcue : env.UnmarshalConfigUpdateEnvelope payload.Data = .ok configUpdateEnv)
    (hexp : s.channelID = "" ∨ s.channelID = ch.ChannelId)
    (hsh : ∀ tr, ∃ sigHeader, env.NewSignatureHeader tr signer = .ok sigHeader)
    (hsig : ∀ tr msg, ∃ sig, env.Sign tr signer msg = .ok sig)
    (hout : ∀ tr txType c dataMsg v ep, ∃ out,
      env.CreateSignedEnvelope tr txType c signer dataMsg v ep = .ok out) :
    ∃ out tr dataMsg,
      (sanityCheckAndSignConfigTx env envConfigUpdate signer s).1 = .ok out ∧
      env.CreateSignedEnvelope tr env.HeaderType_CONFIG_UPDATE ch.ChannelId signer dataMsg 0 0 =
        .ok out ∧
      (sanityCheckAndSignConfigTx env envConfigUpdate signer s).2.trace =
        tr ++ [.CreateSignedEnvelope env.HeaderType_CONFIG_UPDATE ch.ChannelId signer
          dataMsg 0 0] ∧
      (sanityCheckAndSignConfigTx env envConfigUpdate signer s).2.channelID = ch.ChannelId := by
  obtain ⟨sigHeader, hsh1⟩ := hsh s.trace
  obtain ⟨sig, hsig1⟩ := hsig (s.trace ++ [.NewSignatureHeader signer])
    (ConcatenateBytes (env.MarshalOrPanic sigHeader) configUpdateEnv.ConfigUpdate)
  obtain ⟨out, hout1⟩ := hout
    (s.trace ++ [.NewSignatureHeader signer,
      .Sign signer (ConcatenateBytes (env.MarshalOrPanic sigHeader)
        configUpdateEnv.ConfigUpdate)])
    env.HeaderType_CONFIG_UPDATE ch.ChannelId
    { configUpdateEnv with
      Signatures := configUpdateEnv.Signatures ++
        [{ SignatureHeader := env.MarshalOrPanic sigHeader, Signature := sig }] } 0 0
  refine ⟨out, _, _, ?_, hout1, ?_, ?_⟩
  · unfold sanityCheckAndSignConfigTx
    rcases hexp with he | he
    · simp [hp, hh, hc, hch, hty, hid, hcue, he, State.log, hsh1, hsig1, hout1]
    · simp [hp, hh, hc, hch, hty, hid, hcue, he, State.log, hsh1, hsig1, hout1]
  · unfold sanityCheckAndSignConfigTx
    rcases hexp with he | he
    · simp [hp, hh, hc, hch, hty, hid, hcue, he, State.log, hsh1, hsig1]
    · simp [hp, hh, hc, hch, hty, hid, hcue, he, State.log, hsh1, hsig1]
  · unfold sanityCheckAndSignConfigTx
    rcases hexp with he | he
    · simp [hp, hh, hc, hch, hty, hid, hcue, he, State.log, hsh1, hsig1]
    · simp [hp, hh, hc, hch, hty, hid, hcue, he, State.log, hsh1, hsig1]

/-- C2 at a concrete input: a transaction for "mychannel" checked with no
expected identifier; the identifier is adopted. -/
theorem sanityCheck_resolves_channel_witness :
    (demoState "").channelID = "" ∧
      ∃ out tr dataMsg,
        (sanityCheckAndSignConfigTx (demoEnv 0 0) (Envelope.mk [4, 1, 9] []) 1
          (demoState "")).1 = .ok out ∧
        (demoEnv 0 0).CreateSignedEnvelope tr (demoEnv 0 0).HeaderType_CONFIG_UPDATE
          "mychannel" 1 dataMsg 0 0 = .ok out ∧
        (sanityCheckAndSignConfigTx (demoEnv 0 0) (Envelope.mk [4, 1, 9] []) 1
          (demoState "")).2.trace =
          tr ++ [.CreateSignedEnvelope (demoEnv 0 0).HeaderType_CONFIG_UPDATE "mychannel" 1
            dataMsg 0 0] ∧
        (sanityCheckAndSignConfigTx (demoEnv 0 0) (Envelope.mk [4, 1, 9] []) 1
          (demoState "")).2.channelID = "mychannel" :=
  ⟨rfl, sanityCheck_resolves_channel (demoEnv 0 0) (Envelope.mk [4, 1, 9] []) 1 (demoState "")
    { Header := some { ChannelHeader := some [2, 1], SignatureHeader := none }, Data := [9] }
    { ChannelHeader := some [2, 1], SignatureHeader := none } [2, 1]
    { Type_ := 2, ChannelId := "mychannel" } { ConfigUpdate := [9], Signatures := [] }
    rfl rfl rfl rfl rfl (by decide) rfl (Or.inl rfl)
    (fun _ => ⟨_, rfl⟩) (fun _ _ => ⟨_, rfl⟩) (fun _ _ _ _ _ _ => ⟨_, rfl⟩)⟩

/-- C3: for an envelope that passes the sanity checks and a signer whose
`NewSignatureHeader` and `Sign` succeed, the config-update envelope handed to
`CreateSignedEnvelope` has the original `ConfigUpdate` bytes and the original
signatures followed by exactly one new `ConfigSignature`; its
`SignatureHeader` is the encoding of the fresh signature header and its
`Signature` is what `Sign` returned for the signature header bytes followed
by the `ConfigUpdate` bytes.  `Sign` is called once, on that message. -/
theorem sanityCheck_appends_one_signature (env : Env) (envConfigUpdate : Envelope)
    (signer : Signer) (s : State) (payload : Payload) (header : Header) (chBytes : Bytes)
    (ch : ChannelHeader) (configUpdateEnv : ConfigUpdateEnvelope)
    (sigHeader : SignatureHeader) (sig : Bytes)
    (hp : env.UnmarshalPayload envConfigUpdate.Payload = .ok payload)
    (hh : payload.Header = some header)
    (hc : header.ChannelHeader = some chBytes)
    (hch : env.UnmarshalChannelHeader chBytes = .ok ch)
    (hty : ch.Type_ = env.HeaderType_CONFIG_UPDATE)
    (hid : ch.ChannelId ≠ "")
    (hexp : s.channelID = "" ∨ s.channelID = ch.ChannelId)
    (hcue : env.UnmarshalConfigUpdateEnvelope payload.Data = .ok configUpdateEnv)
    (hsh : env.NewSignatureHeader s.trace signer = .ok sigHeader)
    (hsig : env.Sign (s.trace ++ [.NewSignatureHeader signer]) signer
      (env.MarshalOrPanic sigHeader ++ configUpdateEnv.ConfigUpdate) = .ok sig) :
    sanityCheckAndSignConfigTx env envConfigUpdate signer s =
      (env.CreateSignedEnvelope
          (s.trace ++ [.NewSignatureHeader signer,
            .Sign signer (env.MarshalOrPanic sigHeader ++ configUpdateEnv.ConfigUpdate)])
          env.HeaderType_CONFIG_UPDATE ch.ChannelId signer
          { ConfigUpdate := configUpdateEnv.ConfigUpdate,
            Signatures := configUpdateEnv.Signatures ++
              [{ SignatureHeader := env.MarshalOrPanic sigHeader, Signature := sig }] } 0 0,
        { s with
          channelID := ch.ChannelId,
          trace := s.trace ++ [.NewSignatureHeader signer,
            .Sign signer (env.MarshalOrPanic sigHeader ++ configUpdateEnv.ConfigUpdate),
            .CreateSignedEnvelope env.HeaderType_CONFIG_UPDATE ch.ChannelId signer
              { ConfigUpdate := configUpdateEnv.ConfigUpdate,
                Signatures := configUpdateEnv.Signatures ++
                  [{ SignatureHeader := env.MarshalOrPanic sigHeader, Signature := sig }] }
              0 0] }) := by
  unfold sanityCheckAndSignConfigTx
  rcases hexp with he | he
  · simp [hp, hh, hc, hch, hty, hid, hcue, he, State.log, hsh, hsig, ConcatenateBytes]
  · cases s
    simp only at he
    subst he
    simp [hp, hh, hc, hch, hty, hid, hcue, State.log, hsh, hsig, ConcatenateBytes]

/-- C3 at a concrete input: a transaction that already carries one signature
gets a second one, over signature header bytes `[1, 0]` followed by the
config update `[9]`. -/
theorem sanityCheck_appends_one_signature_witness :
    sanityCheckAndSignConfigTx
        { demoEnv 0 0 with
          UnmarshalConfigUpdateEnvelope := fun d =>
            .ok { ConfigUpdate := d, Signatures := [{ SignatureHeader := [3], Signature := [4] }] } }
        (Envelope.mk [4, 1, 9] []) 1 (demoState "mychannel") =
      (.ok { Payload := [4, 1, 9], Signature := [1] },
        { demoState "mychannel" with
          trace := [.NewSignatureHeader 1, .Sign 1 [1, 0, 9],
            .CreateSignedEnvelope 2 "mychannel" 1
              { ConfigUpdate := [9],
                Signatures := [{ SignatureHeader := [3], Signature := [4] },
                  { SignatureHeader := [1, 0], Signature := [1, 10] }] } 0 0] }) :=
  sanityCheck_appends_one_signature
    { demoEnv 0 0 with
      UnmarshalConfigUpdateEnvelope := fun d =>
        .ok { ConfigUpdate := d, Signatures := [{ SignatureHeader := [3], Signature := [4] }] } }
    (Envelope.mk [4, 1, 9] []) 1 (demoState "mychannel")
    { Header := some { ChannelHeader := some [2, 1], SignatureHeader := none }, Data := [9] }
    { ChannelHeader := some [2, 1], SignatureHeader := none } [2, 1]
    { Type_ := 2, ChannelId := "mychannel" }
    { ConfigUpdate := [9], Signatures := [{ SignatureHeader := [3], Signature := [4] }] }
    { Creator := [1], Nonce := [0] } [1, 10]
    rfl rfl rfl rfl rfl (by decide) (Or.inr rfl) rfl rfl rfl

/-- C4: `Create` with the empty channel identifier returns the error "must
supply channel ID" at once, for every factory argument, transaction file and
fuel: the two package variables are set and the trace of collaborator calls
is what it was, so no factory was initialised, nothing was sent or fetched
and no file was written. -/
theorem Create_empty_channelID (env : Env) (fuel : Nat) (cf : Option ChannelCmdFactory)
    (txFile : String) (s : State) :
    Create env fuel cf "" txFile s =
        some (.error (.new "must supply channel ID"),
          { s with channelID := "", channelTxFile := txFile }) ∧
      (Create env fuel cf "" txFile s).map (fun p => p.2.trace) = some s.trace ∧
      (Create env fuel cf "" txFile s).map (fun p => networkCalls p.2.trace) =
        some (networkCalls s.trace) ∧
      (Create env fuel cf "" txFile s).map (fun p => fileWrites p.2.trace) =
        some (fileWrites s.trace) := by
  have h : Create env fuel cf "" txFile s =
      some (.error (.new "must supply channel ID"),
        { s with channelID := "", channelTxFile := txFile }) := by
    simp [Create, UndefinedParamValue]
  refine ⟨h, ?_, ?_, ?_⟩ <;> rw [h] <;> rfl

/-- C5: if `GetSpecifiedBlock(0)` fails while fewer than `N` attempts were
made since the call started and returns block `b` on attempt `N + 1`, every
`InitCmdFactory` succeeds, and the timer has not fired while at most `N`
attempts were made, then `getGenesisBlock` (with fuel for `N + 1`
iterations) returns `b` without error.  There are `N` factories `cfs`, each
the return of `env.InitCmdFactory` called right after the failed attempt on
the connection held and the `Close` of that connection, and the calls of the
run are exactly: the timer start; on the initial connection and on the
connection of every factory but the last, one attempt, one `Close`, one
`InitCmdFactory` and the sleep; on the last connection one attempt and one
`Close`; the timer stop.  So there are exactly `N` reconnections, and the
connections closed are the initial one and the `N` reconnected ones, one
`Close` each. -/
theorem getGenesisBlock_after_failures (env : Env) (N : Nat) (b : Block)
    (cf : ChannelCmdFactory) (s : State)
    (hfail : ∀ tr c, attempts tr < attempts s.trace + N →
      ∃ e, env.GetSpecifiedBlock tr c 0 = .error e)
    (hok : ∀ tr c, attempts tr = attempts s.trace + N → env.GetSpecifiedBlock tr c 0 = .ok b)
    (hinit : ∀ tr, ∃ cf1, env.InitCmdFactory tr = .ok cf1)
    (htimer : ∀ tr, attempts tr ≤ attempts s.trace + N → env.timerFired tr = false)
    (fuel : Nat) (hfuel : N < fuel) :
    ∃ (cfs : List ChannelCmdFactory) (s1 : State),
      cfs.length = N ∧
      factoryChain env (s.trace ++ [.NewTimer s.timeout]) cf.DeliverClient cfs = true ∧
      getGenesisBlock env fuel cf s = some (.ok b, s1) ∧
      s1 = { s with
        trace := s.trace ++ [.NewTimer s.timeout] ++
          pollEvents (cf.DeliverClient :: cfs.map ChannelCmdFactory.DeliverClient) ++
          [.StopTimer] } ∧
      reconnections s1.trace = reconnections s.trace + N ∧
      attempts s1.trace = attempts s.trace + N + 1 ∧
      closedDeliver s1.trace =
        closedDeliver s.trace ++
          cf.DeliverClient :: cfs.map ChannelCmdFactory.DeliverClient := by
  have ha : attempts (s.log (.NewTimer s.timeout)).trace = attempts s.trace := by
    simp [State.log, attempts, List.countP_append]
  obtain ⟨cfs, hlen, hchain, hl⟩ :=
    pollLoop_after_failures env b (attempts s.trace + N) hfail hok hinit htimer N cf
      (s.log (.NewTimer s.timeout)) (by rw [ha]) fuel hfuel
  have hr := reconnections_pollEvents (cfs.map ChannelCmdFactory.DeliverClient) cf.DeliverClient
  have hat := attempts_pollEvents (cfs.map ChannelCmdFactory.DeliverClient) cf.DeliverClient
  have hcl := closedDeliver_pollEvents (cfs.map ChannelCmdFactory.DeliverClient) cf.DeliverClient
  simp only [reconnections] at hr
  simp only [attempts] at hat
  simp only [closedDeliver] at hcl
  refine ⟨cfs, _, hlen, hchain, ?_, rfl, ?_, ?_, ?_⟩
  · simp only [getGenesisBlock, hl]
    simp [State.log, List.append_assoc]
  · simp [reconnections, List.countP_append, List.countP_cons, hr, hlen]
  · simp [attempts, List.countP_append, List.countP_cons, hat, hlen]
    omega
  · simp [closedDeliver, List.filterMap_append, hcl]

/-- C5 at a concrete input: the delivery service answers "BlockNotFound"
twice and then serves the block; the factory is called twice and returns
connections 7 and 14; connections 0, 7 and 14 are closed once each. -/
theorem getGenesisBlock_after_failures_witness :
    (∃ (cfs : List ChannelCmdFactory) (s1 : State),
      cfs.length = 2 ∧
      factoryChain demoReconnectEnv [.NewTimer 5000] 0 cfs = true ∧
      getGenesisBlock demoReconnectEnv 3 demoFactory (demoState "mychannel") =
        some (.ok demoBlock, s1) ∧
      s1 = { demoState "mychannel" with
        trace := [] ++ [.NewTimer 5000] ++
          pollEvents (0 :: cfs.map ChannelCmdFactory.DeliverClient) ++ [.StopTimer] } ∧
      reconnections s1.trace = 2 ∧
      attempts s1.trace = 3 ∧
      closedDeliver s1.trace = [] ++ 0 :: cfs.map ChannelCmdFactory.DeliverClient) ∧
      getGenesisBlock demoReconnectEnv 3 demoFactory (demoState "mychannel") =
        some (.ok demoBlock,
          { demoState "mychannel" with
            trace := [.NewTimer 5000,
              .GetSpecifiedBlock 0 0, .CloseDeliver 0, .InitCmdFactory, .Sleep 200,
              .GetSpecifiedBlock 7 0, .CloseDeliver 7, .InitCmdFactory, .Sleep 200,
              .GetSpecifiedBlock 14 0, .CloseDeliver 14, .StopTimer] }) ∧
      factoryChain demoReconnectEnv [.NewTimer 5000] 0
        [{ Signer := 1, DeliverClient := 7, BroadcastFactory := 0 },
          { Signer := 1, DeliverClient := 14, BroadcastFactory := 0 }] = true :=
  ⟨getGenesisBlock_after_failures demoReconnectEnv 2 demoBlock demoFactory
      (demoState "mychannel")
      (fun tr _ h => ⟨.ext "BlockNotFound", by
        have h1 : attempts tr < 2 := h
        simp [demoReconnectEnv, demoEnv, h1]⟩)
      (fun tr _ h => by
        have h1 : attempts tr = 2 := h
        simp [demoReconnectEnv, demoEnv, h1])
      (fun _ => ⟨_, rfl⟩)
      (fun tr h => by
        have h1 : attempts tr ≤ 2 := h
        simp [demoReconnectEnv, demoEnv]
        omega)
      3 (by decide),
    by decide, by decide⟩

/-- C6: when the polling loop of `getGenesisBlock` reaches an iteration at
which the deadline timer has fired (the first such one, since the loop ends
there), the connection held at that iteration is closed and the call returns
no block and the error "timeout waiting for channel creation"; the trace
ends with that `Close` and the timer stop, so no further `GetSpecifiedBlock`
and no further `InitCmdFactory` is made, and there is no later iteration. -/
theorem getGenesisBlock_timeout (env : Env) (k : Nat) (cf : ChannelCmdFactory) (s : State)
    (cf1 : ChannelCmdFactory) (s1 : State)
    (hreach : pollState env k cf (s.log (.NewTimer s.timeout)) = some (cf1, s1))
    (hfired : env.timerFired s1.trace = true)
    (fuel : Nat) (hfuel : k < fuel) :
    getGenesisBlock env fuel cf s =
        some (.error (.new "timeout waiting for channel creation"),
          { s1 with trace := s1.trace ++ [.CloseDeliver cf1.DeliverClient, .StopTimer] }) ∧
      attempts (s1.trace ++ [.CloseDeliver cf1.DeliverClient, .StopTimer]) = attempts s1.trace ∧
      reconnections (s1.trace ++ [.CloseDeliver cf1.DeliverClient, .StopTimer]) =
        reconnections s1.trace ∧
      ∀ j, k < j → pollState env j cf (s.log (.NewTimer s.timeout)) = none := by
  have hd : pollOnce env cf1 s1 =
      .done (.error (.new "timeout waiting for channel creation"))
        (s1.log (.CloseDeliver cf1.DeliverClient)) := by
    simp [pollOnce, hfired]
  refine ⟨?_, ?_, ?_, ?_⟩
  · obtain ⟨f, rfl⟩ : ∃ f, fuel = k + (f + 1) := ⟨fuel - k - 1, by omega⟩
    have hl : pollLoop env (k + (f + 1)) cf (s.log (.NewTimer s.timeout)) =
        some (.error (.new "timeout waiting for channel creation"),
          s1.log (.CloseDeliver cf1.DeliverClient)) := by
      rw [pollLoop_of_pollState env k cf _ cf1 s1 hreach]
      simp only [pollLoop, hd]
    simp only [getGenesisBlock, hl]
    simp [State.log]
  · simp [attempts, List.countP_append]
  · simp [reconnections, List.countP_append]
  · exact pollState_none_of_done env k cf _ cf1 s1 _ _ hreach hd

/-- C6 at a concrete input: the delivery service keeps failing and the timer
fires once two attempts were made; iteration 2 closes connection 2 and
reports the timeout. -/
theorem getGenesisBlock_timeout_witness :
    getGenesisBlock (demoEnv 5 2) 3 demoFactory (demoState "mychannel") =
        some (.error (.new "timeout waiting for channel creation"),
          { demoState "mychannel" with
            trace := [.NewTimer 5000, .GetSpecifiedBlock 0 0, .CloseDeliver 0, .InitCmdFactory,
              .Sleep 200, .GetSpecifiedBlock 1 0, .CloseDeliver 1, .InitCmdFactory, .Sleep 200] ++
              [.CloseDeliver 2, .StopTimer] }) ∧
      attempts ([.NewTimer 5000, .GetSpecifiedBlock 0 0, .CloseDeliver 0, .InitCmdFactory,
          .Sleep 200, .GetSpecifiedBlock 1 0, .CloseDeliver 1, .InitCmdFactory, .Sleep 200] ++
          [.CloseDeliver 2, .StopTimer]) =
        attempts [.NewTimer 5000, .GetSpecifiedBlock 0 0, .CloseDeliver 0, .InitCmdFactory,
          .Sleep 200, .GetSpecifiedBlock 1 0, .CloseDeliver 1, .InitCmdFactory, .Sleep 200] ∧
      reconnections ([.NewTimer 5000, .GetSpecifiedBlock 0 0, .CloseDeliver 0, .InitCmdFactory,
          .Sleep 200, .GetSpecifiedBlock 1 0, .CloseDeliver 1, .InitCmdFactory, .Sleep 200] ++
          [.CloseDeliver 2, .StopTimer]) =
        reconnections [.NewTimer 5000, .GetSpecifiedBlock 0 0, .CloseDeliver 0, .InitCmdFactory,
          .Sleep 200, .GetSpecifiedBlock 1 0, .CloseDeliver 1, .InitCmdFactory, .Sleep 200] ∧
      ∀ j, 2 < j → pollState (demoEnv 5 2) j demoFactory
        ((demoState "mychannel").log (.NewTimer (demoState "mychannel").timeout)) = none :=
  getGenesisBlock_timeout (demoEnv 5 2) 2 demoFactory (demoState "mychannel")
    { Signer := 1, DeliverClient := 2, BroadcastFactory := 0 }
    { demoState "mychannel" with
      trace := [.NewTimer 5000, .GetSpecifiedBlock 0 0, .CloseDeliver 0, .InitCmdFactory,
        .Sleep 200, .GetSpecifiedBlock 1 0, .CloseDeliver 1, .InitCmdFactory, .Sleep 200] }
    (by decide) (by decide) 3 (by decide)

/-- C7: in a run of `executeCreate`, when assembling, the sanity check, the
broadcast stage (the factory's error wrapped by `sendCreateChainTransaction`,
or the error of `Send`), the genesis-block wait or the block serialization
fails, `executeCreate` returns that error and the run writes no file;
otherwise the run makes exactly one file write, of the serialized genesis
block with mode 0o644, to `channelID + ".block"` when `outputBlock` is the
undefined value and to `outputBlock` otherwise, and returns what
`WriteFile` returned. -/
theorem executeCreate_writes_once (env : Env) (fuel : Nat) (cf : ChannelCmdFactory)
    (s : State) :
    (∀ err s1,
        assembleCreateTx env cf s = (.error err, s1) →
        executeCreate env fuel cf s = some (.error err, s1) ∧
          fileWrites s1.trace = fileWrites s.trace) ∧
      (∀ chCrtEnv s1 err s2,
        assembleCreateTx env cf s = (.ok chCrtEnv, s1) →
        sanityCheckAndSignConfigTx env chCrtEnv cf.Signer s1 = (.error err, s2) →
        executeCreate env fuel cf s = some (.error err, s2) ∧
          fileWrites s2.trace = fileWrites s.trace) ∧
      (∀ chCrtEnv s1 signedEnv s2 err s3,
        assembleCreateTx env cf s = (.ok chCrtEnv, s1) →
        sanityCheckAndSignConfigTx env chCrtEnv cf.Signer s1 = (.ok signedEnv, s2) →
        broadcastEnvelope env cf signedEnv s2 = (.error err, s3) →
        executeCreate env fuel cf s = some (.error err, s3) ∧
          fileWrites s3.trace = fileWrites s.trace) ∧
      (∀ u s3 err s4,
        sendCreateChainTransaction env cf s = (.ok u, s3) →
        getGenesisBlock env fuel cf s3 = some (.error err, s4) →
        executeCreate env fuel cf s = some (.error err, s4) ∧
          fileWrites s4.trace = fileWrites s.trace) ∧
      (∀ u s3 block s4 err,
        sendCreateChainTransaction env cf s = (.ok u, s3) →
        getGenesisBlock env fuel cf s3 = some (.ok block, s4) →
        env.Marshal block = .error err →
        executeCreate env fuel cf s = some (.error err, s4) ∧
          fileWrites s4.trace = fileWrites s.trace) ∧
      (∀ u s3 block s4 b,
        sendCreateChainTransaction env cf s = (.ok u, s3) →
        getGenesisBlock env fuel cf s3 = some (.ok block, s4) →
        env.Marshal block = .ok b →
        executeCreate env fuel cf s =
            some (env.WriteFile s4.trace
                (if s.outputBlock = UndefinedParamValue then s4.channelID ++ ".block"
                  else s.outputBlock) b 0o644,
              s4.log (.WriteFile
                (if s.outputBlock = UndefinedParamValue then s4.channelID ++ ".block"
                  else s.outputBlock) b 0o644)) ∧
          fileWrites (s4.log (.WriteFile
              (if s.outputBlock = UndefinedParamValue then s4.channelID ++ ".block"
                else s.outputBlock) b 0o644)).trace =
            fileWrites s.trace ++
              [(if s.outputBlock = UndefinedParamValue then s4.channelID ++ ".block"
                else s.outputBlock, b, 0o644)] ∧
          (s.channelID ≠ "" → s4.channelID = s.channelID)) := by
  obtain ⟨_, _, a3, _⟩ := assembleCreateTx_frame env cf s
  obtain ⟨d1, d2, d3⟩ := sendCreateChainTransaction_frame env cf s
  refine ⟨?_, ?_, ?_, ?_, ?_, ?_⟩
  · intro err s1 ha
    rw [ha] at a3
    exact ⟨by simp [executeCreate, sendCreateChainTransaction, ha], a3⟩
  · intro chCrtEnv s1 err s2 ha hb
    obtain ⟨_, b2, _, _⟩ := sanityCheck_frame env chCrtEnv cf.Signer s1
    rw [ha] at a3
    rw [hb] at b2
    exact ⟨by simp [executeCreate, sendCreateChainTransaction, ha, hb], b2.trans a3⟩
  · intro chCrtEnv s1 signedEnv s2 err s3 ha hb hc
    obtain ⟨_, b2, _, _⟩ := sanityCheck_frame env chCrtEnv cf.Signer s1
    obtain ⟨_, _, c3⟩ := broadcastEnvelope_frame env cf signedEnv s2
    rw [ha] at a3
    rw [hb] at b2
    rw [hc] at c3
    exact ⟨by simp [executeCreate, sendCreateChainTransaction, ha, hb, hc],
      c3.trans (b2.trans a3)⟩
  · intro u s3 err s4 hs hg
    obtain ⟨_, _, g3⟩ := getGenesisBlock_frame env fuel cf s3 _ s4 hg
    rw [hs] at d2
    exact ⟨by simp [executeCreate, hs, hg], g3.trans d2⟩
  · intro u s3 block s4 err hs hg hm
    obtain ⟨_, _, g3⟩ := getGenesisBlock_frame env fuel cf s3 _ s4 hg
    rw [hs] at d2
    exact ⟨by simp [executeCreate, hs, hg, hm], g3.trans d2⟩
  · intro u s3 block s4 b hs hg hm
    obtain ⟨g1, g2, g3⟩ := getGenesisBlock_frame env fuel cf s3 _ s4 hg
    rw [hs] at d1 d2 d3
    simp only at d1 d2 d3
    have ho : s4.outputBlock = s.outputBlock := g2.trans d1
    refine ⟨?_, ?_, fun h => g1.trans (d3 h)⟩
    · by_cases hu : s.outputBlock = UndefinedParamValue
      · simp [executeCreate, hs, hg, hm, ho, hu]
      · simp [executeCreate, hs, hg, hm, ho, hu]
    · simp only [State.log, fileWrites, List.filterMap_append] at g3 d2 ⊢
      rw [g3, d2]
      simp

/-- C7 at concrete inputs: a missing transaction file, a transaction file for
another channel, a failing `Send`, a timeout of the wait, a block that does not
serialize, and a successful run that writes "mychannel.block" once. -/
theorem executeCreate_writes_once_witness :
    (∃ s1, executeCreate (demoEnv 0 9) 5 demoFactory
        { demoState "mychannel" with channelTxFile := "missing.tx" } =
          some (.error (.configTxFileNotFound "no such file"), s1) ∧
        fileWrites s1.trace = []) ∧
      (∃ s1, executeCreate (demoEnv 0 9) 5 demoFactory
        { demoState "mychannel" with channelTxFile := "otherchannel.tx" } =
          some (.error (.invalidCreateTx "mismatched channel ID otherchannel != mychannel"),
            s1) ∧
        fileWrites s1.trace = []) ∧
      (∃ s1, executeCreate
        { demoEnv 0 9 with Send := fun _ _ _ => .error (.ext "SERVICE_UNAVAILABLE") } 5
        demoFactory (demoState "mychannel") = some (.error (.ext "SERVICE_UNAVAILABLE"), s1) ∧
        fileWrites s1.trace = []) ∧
      (∃ s1, executeCreate (demoEnv 5 2) 5 demoFactory (demoState "mychannel") =
          some (.error (.new "timeout waiting for channel creation"), s1) ∧
        fileWrites s1.trace = []) ∧
      (∃ s1, executeCreate
        { demoEnv 0 9 with Marshal := fun _ => .error (.ext "proto: marshal") } 5
        demoFactory (demoState "mychannel") = some (.error (.ext "proto: marshal"), s1) ∧
        fileWrites s1.trace = []) ∧
      (∃ s1, executeCreate (demoEnv 2 9) 5 demoFactory (demoState "mychannel") =
          some (.ok (), s1) ∧
        fileWrites s1.trace = [("mychannel.block", [0, 7, 7], 0o644)]) :=
  ⟨⟨_, (executeCreate_writes_once (demoEnv 0 9) 5 demoFactory
      { demoState "mychannel" with channelTxFile := "missing.tx" }).1 _ _ rfl⟩,
    ⟨_, (executeCreate_writes_once (demoEnv 0 9) 5 demoFactory
      { demoState "mychannel" with channelTxFile := "otherchannel.tx" }).2.1 _ _ _ _ rfl rfl⟩,
    ⟨_, (executeCreate_writes_once
      { demoEnv 0 9 with Send := fun _ _ _ => .error (.ext "SERVICE_UNAVAILABLE") } 5
      demoFactory (demoState "mychannel")).2.2.1 _ _ _ _ _ _ rfl rfl rfl⟩,
    ⟨_, (executeCreate_writes_once (demoEnv 5 2) 5 demoFactory
      (demoState "mychannel")).2.2.2.1 _ _ _ _ rfl rfl⟩,
    ⟨_, (executeCreate_writes_once
      { demoEnv 0 9 with Marshal := fun _ => .error (.ext "proto: marshal") } 5
      demoFactory (demoState "mychannel")).2.2.2.2.1 _ _ _ _ _ rfl rfl rfl⟩,
    ⟨_, ((executeCreate_writes_once (demoEnv 2 9) 5 demoFactory
      (demoState "mychannel")).2.2.2.2.2 _ _ _ _ _ rfl rfl rfl).1,
      ((executeCreate_writes_once (demoEnv 2 9) 5 demoFactory
      (demoState "mychannel")).2.2.2.2.2 _ _ _ _ _ rfl rfl rfl).2.1⟩⟩

/-- C8, as the code has it: a successful run of `executeCreate` makes one
file write and its permission bits are 0o644, that is read and write for the
owner, read only for group and others, and no execute bit for anyone. -/
theorem executeCreate_block_file_mode (env : Env) (fuel : Nat) (cf : ChannelCmdFactory)
    (s s1 : State) (h : executeCreate env fuel cf s = some (.ok (), s1)) :
    ∃ file data perm,
      fileWrites s1.trace = fileWrites s.trace ++ [(file, data, perm)] ∧
      perm = 0o644 ∧
      permBit perm 8 = true ∧ permBit perm 7 = true ∧ permBit perm 6 = false ∧
      permBit perm 5 = true ∧ permBit perm 4 = false ∧ permBit perm 3 = false ∧
      permBit perm 2 = true ∧ permBit perm 1 = false ∧ permBit perm 0 = false := by
  obtain ⟨_, d2, _⟩ := sendCreateChainTransaction_frame env cf s
  unfold executeCreate at h
  cases hsend : sendCreateChainTransaction env cf s with
  | mk r1 s2 =>
    rw [hsend] at h d2
    simp only at d2
    cases r1 with
    | error err => simp at h
    | ok u =>
      simp only at h
      cases hg : getGenesisBlock env fuel cf s2 with
      | none => simp [hg] at h
      | some p =>
        obtain ⟨r3, s3⟩ := p
        obtain ⟨_, _, g3⟩ := getGenesisBlock_frame env fuel cf s2 r3 s3 hg
        rw [hg] at h
        cases r3 with
        | error err => simp at h
        | ok block =>
          simp only at h
          cases hm : env.Marshal block with
          | error err => simp [hm] at h
          | ok b =>
            simp only [hm, Option.some.injEq, Prod.mk.injEq] at h
            obtain ⟨_, rfl⟩ := h
            refine ⟨if s3.outputBlock ≠ UndefinedParamValue then s3.outputBlock
              else s3.channelID ++ ".block", b, 0o644, ?_, rfl, by decide, by decide, by decide, by decide,
              by decide, by decide, by decide, by decide, by decide⟩
            simp only [State.log, fileWrites, List.filterMap_append] at g3 d2 ⊢
            rw [g3, d2]
            simp

/-- C8 amended, at a concrete input: the successful toy run. -/
theorem executeCreate_block_file_mode_witness :
    ∃ file data perm,
      fileWrites [Event.MakeChannelCreationTransaction "mychannel" 1, .NewSignatureHeader 1,
          .Sign 1 [1, 1, 5],
          .CreateSignedEnvelope 2 "mychannel" 1
            { ConfigUpdate := [5],
              Signatures := [{ SignatureHeader := [1, 1], Signature := [1, 7] }] } 0 0,
          .BroadcastFactory 0, .Send 100 { Payload := [4, 1, 5], Signature := [1] },
          .CloseBroadcast 100, .NewTimer 5000, .GetSpecifiedBlock 0 0, .CloseDeliver 0,
          .StopTimer, .WriteFile "mychannel.block" [0, 7, 7] 0o644] =
        fileWrites (demoState "mychannel").trace ++ [(file, data, perm)] ∧
      perm = 0o644 ∧
      permBit perm 8 = true ∧ permBit perm 7 = true ∧ permBit perm 6 = false ∧
      permBit perm 5 = true ∧ permBit perm 4 = false ∧ permBit perm 3 = false ∧
      permBit perm 2 = true ∧ permBit perm 1 = false ∧ permBit perm 0 = false :=
  executeCreate_block_file_mode (demoEnv 0 9) 1 demoFactory (demoState "mychannel")
    { demoState "mychannel" with
      trace := [.MakeChannelCreationTransaction "mychannel" 1, .NewSignatureHeader 1,
        .Sign 1 [1, 1, 5],
        .CreateSignedEnvelope 2 "mychannel" 1
          { ConfigUpdate := [5],
            Signatures := [{ SignatureHeader := [1, 1], Signature := [1, 7] }] } 0 0,
        .BroadcastFactory 0, .Send 100 { Payload := [4, 1, 5], Signature := [1] },
        .CloseBroadcast 100, .NewTimer 5000, .GetSpecifiedBlock 0 0, .CloseDeliver 0,
        .StopTimer, .WriteFile "mychannel.block" [0, 7, 7] 0o644] }
    (by decide)

/-- C8 as stated fails: the successful toy run writes "mychannel.block" with
mode 0o644, which is not owner-only: group (bit 5) and others (bit 2) may
read the file. -/
theorem executeCreate_block_file_not_owner_only :
    (executeCreate (demoEnv 0 9) 1 demoFactory (demoState "mychannel")).map
        (fun p => (p.1, fileWrites p.2.trace)) =
        some (.ok (), [("mychannel.block", [0, 7, 7], 0o644)]) ∧
      ¬ ownerReadWriteOnly 0o644 ∧ permBit 0o644 5 = true ∧ permBit 0o644 2 = true := by
  refine ⟨by decide, ?_, by decide, by decide⟩
  unfold ownerReadWriteOnly
  decide

/-- C9: in a run of `sendCreateChainTransaction` in which assembling and the
sanity check succeed and the broadcast factory yields a connection, the
network calls are the factory call, one `Send` of the signed envelope on that
connection and then one `Close` of it, and the result is the result of
`Send`, whether that is an error or not; when assembling or the sanity check
fails, that error is returned and no network call is made: the broadcast
factory is not invoked and nothing is sent. -/
theorem sendCreateChainTransaction_one_send (env : Env) (cf : ChannelCmdFactory) (s : State) :
    (∀ chCrtEnv s1 signedEnv s2 bc,
        assembleCreateTx env cf s = (.ok chCrtEnv, s1) →
        sanityCheckAndSignConfigTx env chCrtEnv cf.Signer s1 = (.ok signedEnv, s2) →
        env.BroadcastFactory s2.trace cf.BroadcastFactory = .ok bc →
        sendCreateChainTransaction env cf s =
            (env.Send (s2.trace ++ [.BroadcastFactory cf.BroadcastFactory]) bc signedEnv,
              { s2 with
                trace := s2.trace ++ [.BroadcastFactory cf.BroadcastFactory,
                  .Send bc signedEnv, .CloseBroadcast bc] }) ∧
          networkCalls (sendCreateChainTransaction env cf s).2.trace =
            networkCalls s.trace ++ [.BroadcastFactory cf.BroadcastFactory,
              .Send bc signedEnv, .CloseBroadcast bc]) ∧
      (∀ err s1,
        assembleCreateTx env cf s = (.error err, s1) →
        sendCreateChainTransaction env cf s = (.error err, s1) ∧
          networkCalls s1.trace = networkCalls s.trace) ∧
      (∀ chCrtEnv s1 err s2,
        assembleCreateTx env cf s = (.ok chCrtEnv, s1) →
        sanityCheckAndSignConfigTx env chCrtEnv cf.Signer s1 = (.error err, s2) →
        sendCreateChainTransaction env cf s = (.error err, s2) ∧
          networkCalls s2.trace = networkCalls s.trace) := by
  obtain ⟨_, _, _, a4⟩ := assembleCreateTx_frame env cf s
  refine ⟨?_, ?_, ?_⟩
  · intro chCrtEnv s1 signedEnv s2 bc ha hb hc
    obtain ⟨_, _, b3, _⟩ := sanityCheck_frame env chCrtEnv cf.Signer s1
    rw [ha] at a4
    rw [hb] at b3
    simp only at a4 b3
    have h : sendCreateChainTransaction env cf s =
        (env.Send (s2.trace ++ [.BroadcastFactory cf.BroadcastFactory]) bc signedEnv,
          { s2 with
            trace := s2.trace ++ [.BroadcastFactory cf.BroadcastFactory,
              .Send bc signedEnv, .CloseBroadcast bc] }) := by
      simp [sendCreateChainTransaction, ha, hb, broadcastEnvelope, hc, State.log]
    refine ⟨h, ?_⟩
    rw [h]
    simp only [networkCalls, List.filter_append] at a4 b3 ⊢
    rw [b3, a4]
    simp
  · intro err s1 ha
    rw [ha] at a4
    exact ⟨by simp [sendCreateChainTransaction, ha], a4⟩
  · intro chCrtEnv s1 err s2 ha hb
    obtain ⟨_, _, b3, _⟩ := sanityCheck_frame env chCrtEnv cf.Signer s1
    rw [ha] at a4
    rw [hb] at b3
    exact ⟨by simp [sendCreateChainTransaction, ha, hb], b3.trans a4⟩

/-- C9 at concrete inputs: a run whose `Send` fails (the error is returned and
the connection is closed all the same), a run whose transaction file is
missing and a run whose transaction file names another channel. -/
theorem sendCreateChainTransaction_one_send_witness :
    (sendCreateChainTransaction
          { demoEnv 0 0 with Send := fun _ _ _ => .error (.ext "SERVICE_UNAVAILABLE") }
          demoFactory (demoState "mychannel") =
        (.error (.ext "SERVICE_UNAVAILABLE"),
          { demoState "mychannel" with
            trace := [.MakeChannelCreationTransaction "mychannel" 1, .NewSignatureHeader 1,
              .Sign 1 [1, 1, 5],
              .CreateSignedEnvelope 2 "mychannel" 1
                { ConfigUpdate := [5],
                  Signatures := [{ SignatureHeader := [1, 1], Signature := [1, 7] }] } 0 0,
              .BroadcastFactory 0, .Send 100 { Payload := [4, 1, 5], Signature := [1] },
              .CloseBroadcast 100] }) ∧
      networkCalls (sendCreateChainTransaction
          { demoEnv 0 0 with Send := fun _ _ _ => .error (.ext "SERVICE_UNAVAILABLE") }
          demoFactory (demoState "mychannel")).2.trace =
        [.BroadcastFactory 0, .Send 100 { Payload := [4, 1, 5], Signature := [1] },
          .CloseBroadcast 100]) ∧
      (sendCreateChainTransaction (demoEnv 0 0) demoFactory
          { demoState "mychannel" with channelTxFile := "missing.tx" } =
        (.error (.configTxFileNotFound "no such file"),
          { demoState "mychannel" with
            channelTxFile := "missing.tx", trace := [.ReadFile "missing.tx"] }) ∧
      networkCalls [Event.ReadFile "missing.tx"] = []) ∧
      (sendCreateChainTransaction (demoEnv 0 0) demoFactory
          { demoState "mychannel" with channelTxFile := "otherchannel.tx" } =
        (.error (.invalidCreateTx "mismatched channel ID otherchannel != mychannel"),
          { demoState "mychannel" with
            channelTxFile := "otherchannel.tx", trace := [.ReadFile "otherchannel.tx"] }) ∧
      networkCalls [Event.ReadFile "otherchannel.tx"] = []) :=
  ⟨(sendCreateChainTransaction_one_send
      { demoEnv 0 0 with Send := fun _ _ _ => .error (.ext "SERVICE_UNAVAILABLE") }
      demoFactory (demoState "mychannel")).1 _ _ _ _ _ rfl rfl rfl,
    (sendCreateChainTransaction_one_send (demoEnv 0 0) demoFactory
      { demoState "mychannel" with channelTxFile := "missing.tx" }).2.1 _ _ rfl,
    (sendCreateChainTransaction_one_send (demoEnv 0 0) demoFactory
      { demoState "mychannel" with channelTxFile := "otherchannel.tx" }).2.2 _ _ _ _ rfl rfl⟩

/-- C10: a run of `Create` with the empty identifier is rejected before any
step runs; every run of `Create` that returns, with or without error, ends
with `channelID` equal to the `channelid` argument; and when a run with a
non-empty identifier gets to `sanityCheckAndSignConfigTx` (through the given
factory or a fresh one, after assembling), `channelID` is the non-empty
argument there, so nothing is adopted, it is still the argument after the
check, and a transaction whose channel header carries another identifier
makes `Create` return an `InvalidCreateTx` error. -/
theorem Create_keeps_channelID (env : Env) (fuel : Nat) (cf : Option ChannelCmdFactory)
    (channelid txFile : String) (s : State) :
    (channelid = "" →
        Create env fuel cf channelid txFile s =
          some (.error (.new "must supply channel ID"),
            { s with channelID := channelid, channelTxFile := txFile })) ∧
      (∀ r s1, Create env fuel cf channelid txFile s = some (r, s1) →
        s1.channelID = channelid) ∧
      (∀ cf1 sE chCrtEnv sA,
        channelid ≠ "" →
        (cf = some cf1 ∧ sE = { s with channelID := channelid, channelTxFile := txFile } ∨
          cf = none ∧ env.InitCmdFactory s.trace = .ok cf1 ∧
            sE = { s with
              channelID := channelid, channelTxFile := txFile,
              trace := s.trace ++ [.InitCmdFactory] }) →
        assembleCreateTx env cf1 sE = (.ok chCrtEnv, sA) →
        Create env fuel cf channelid txFile s = executeCreate env fuel cf1 sE ∧
          sA.channelID = channelid ∧ sA.channelID ≠ "" ∧
          (sanityCheckAndSignConfigTx env chCrtEnv cf1.Signer sA).2.channelID = channelid ∧
          ∀ payload header chBytes ch,
            env.UnmarshalPayload chCrtEnv.Payload = .ok payload →
            payload.Header = some header →
            header.ChannelHeader = some chBytes →
            env.UnmarshalChannelHeader chBytes = .ok ch →
            ch.ChannelId ≠ channelid →
            ∃ text, Create env fuel cf channelid txFile s =
              some (.error (.invalidCreateTx text), sA)) := by
  refine ⟨?_, ?_, ?_⟩
  · intro h
    subst h
    simp [Create, UndefinedParamValue]
  · intro r s1 h
    by_cases hc : channelid = ""
    · subst hc
      simp only [Create, UndefinedParamValue, if_true, Option.some.injEq, Prod.mk.injEq] at h
      obtain ⟨_, rfl⟩ := h
      rfl
    · simp only [Create, UndefinedParamValue, hc, if_false] at h
      cases cf with
      | some cf1 =>
        simp only at h
        exact executeCreate_channelID env fuel cf1 _ hc r s1 h
      | none =>
        simp only at h
        cases hi : env.InitCmdFactory s.trace with
        | error err =>
          simp only [hi, Option.some.injEq, Prod.mk.injEq] at h
          obtain ⟨_, rfl⟩ := h
          rfl
        | ok cf1 =>
          simp only [hi] at h
          exact executeCreate_channelID env fuel cf1 _ hc r s1 h
  · intro cf1 sE chCrtEnv sA hc hentry ha
    have hrun : Create env fuel cf channelid txFile s = executeCreate env fuel cf1 sE := by
      rcases hentry with ⟨rfl, rfl⟩ | ⟨rfl, hi, rfl⟩
      · simp [Create, UndefinedParamValue, hc]
      · simp [Create, UndefinedParamValue, hc, hi, State.log]
    have hE : sE.channelID = channelid := by
      rcases hentry with ⟨_, rfl⟩ | ⟨_, _, rfl⟩ <;> rfl
    obtain ⟨a1, _, _, _⟩ := assembleCreateTx_frame env cf1 sE
    rw [ha] at a1
    have hA : sA.channelID = channelid := a1.trans hE
    have hA0 : sA.channelID ≠ "" := by rw [hA]; exact hc
    obtain ⟨_, _, _, b4⟩ := sanityCheck_frame env chCrtEnv cf1.Signer sA
    refine ⟨hrun, hA, hA0, (b4 hA0).trans hA, ?_⟩
    intro payload header chBytes ch hp hh hch hu hne
    have hbad : ch.Type_ ≠ env.HeaderType_CONFIG_UPDATE ∨ ch.ChannelId = "" ∨
        (ch.ChannelId ≠ "" ∧ sA.channelID ≠ "" ∧ ch.ChannelId ≠ sA.channelID) := by
      by_cases hid : ch.ChannelId = ""
      · exact Or.inr (Or.inl hid)
      · exact Or.inr (Or.inr ⟨hid, hA0, by rw [hA]; exact hne⟩)
    obtain ⟨⟨text, h1⟩, h2⟩ := sanityCheck_reject_core env chCrtEnv cf1.Signer sA payload hp
      (Or.inr (Or.inr ⟨header, chBytes, ch, hh, hch, hu, hbad⟩))
    refine ⟨text, ?_⟩
    have hs : sanityCheckAndSignConfigTx env chCrtEnv cf1.Signer sA =
        (.error (.invalidCreateTx text), sA) := Prod.ext h1 h2
    rw [hrun]
    simp [executeCreate, sendCreateChainTransaction, ha, hs]

/-- C10 at concrete inputs: the empty identifier, a successful run for
"mychannel", and a run for "mychannel" with the transaction file of
"otherchannel" and no factory, which is rejected. -/
theorem Create_keeps_channelID_witness :
    Create (demoEnv 2 9) 5 none "" "otherchannel.tx" (demoState "stale") =
        some (.error (.new "must supply channel ID"),
          { demoState "stale" with channelID := "", channelTxFile := "otherchannel.tx" }) ∧
      (∃ s1, Create (demoEnv 2 9) 5 (some demoFactory) "mychannel" "" (demoState "stale") =
          some (.ok (), s1) ∧ s1.channelID = "mychannel") ∧
      (∃ sA, sA.channelID = "mychannel" ∧
        (sanityCheckAndSignConfigTx (demoEnv 2 9) (Envelope.mk [4, 2, 9] []) 1 sA).2.channelID =
          "mychannel" ∧
        ∃ text, Create (demoEnv 2 9) 5 none "mychannel" "otherchannel.tx" (demoState "stale") =
          some (.error (.invalidCreateTx text), sA)) :=
  ⟨(Create_keeps_channelID (demoEnv 2 9) 5 none "" "otherchannel.tx" (demoState "stale")).1 rfl,
    ⟨_, rfl, (Create_keeps_channelID (demoEnv 2 9) 5 (some demoFactory) "mychannel" ""
      (demoState "stale")).2.1 _ _ rfl⟩,
    ⟨_, ((Create_keeps_channelID (demoEnv 2 9) 5 none "mychannel" "otherchannel.tx"
        (demoState "stale")).2.2 { Signer := 1, DeliverClient := 1, BroadcastFactory := 0 } _
        (Envelope.mk [4, 2, 9] []) _ (by decide) (Or.inr ⟨rfl, rfl, rfl⟩) rfl).2.1,
      ((Create_keeps_channelID (demoEnv 2 9) 5 none "mychannel" "otherchannel.tx"
        (demoState "stale")).2.2 { Signer := 1, DeliverClient := 1, BroadcastFactory := 0 } _
        (Envelope.mk [4, 2, 9] []) _ (by decide) (Or.inr ⟨rfl, rfl, rfl⟩) rfl).2.2.2.1,
      ((Create_keeps_channelID (demoEnv 2 9) 5 none "mychannel" "otherchannel.tx"
        (demoState "stale")).2.2 { Signer := 1, DeliverClient := 1, BroadcastFactory := 0 } _
        (Envelope.mk [4, 2, 9] []) _ (by decide) (Or.inr ⟨rfl, rfl, rfl⟩) rfl).2.2.2.2
        _ _ [2, 2] { Type_ := 2, ChannelId := "otherchannel" } rfl rfl rfl rfl (by decide)⟩⟩

end ChannelCreate
